import Mathlib

/-!
Shallow embedding of the xssh port-forwarding engine.

Sources embedded here:
- internal/forwarding/types.go   : rule, stats, session and its atomic stat methods
- internal/forwarding/manager    : ForwardingManager (StartForwarding, StopForwarding,
                                   GetSession, GetAllSessions, StopAll, getSSHClient)
- internal/forwarding/session.go : socks5Handshake, handleSOCKS5Connection,
                                   copyWithStats, forwardData
- internal/cli                   : parseForwardingRule

Modelling conventions:
- Go machine integers (int, int64) are modelled as Lean Int; the engine's
  counters are traffic statistics for which int64 overflow is not reachable in
  any scenario the spec discusses, so wrap-around is not modelled.
- `sync.Map` registries are modelled as association lists with
  store / load / delete operations; sync.Map key uniqueness corresponds to
  the replace-on-store semantics of `storeKey` below.
- Effectful collaborators (the type-specific starters' dial/listen calls, the
  SSH keepalive probe, socket reads/writes) are modelled as explicit input
  parameters describing the outcome the environment produced, so every
  function here is a pure function of its inputs.
- Go channel `close` on an already-closed channel is a runtime panic; the
  model exposes this as the distinguished result `StopResult.doubleClose`.
-/

namespace XSSH

/-- Forwarding type enum from internal/forwarding/types.go. -/
inductive ForwardingType
  | LocalForward
  | RemoteForward
  | DynamicForward
deriving DecidableEq, Repr

/-- ForwardingRule from internal/forwarding/types.go. Go `int` ports are Int. -/
structure ForwardingRule where
  ID : String
  type : ForwardingType
  LocalHost : String
  LocalPort : Int
  RemoteHost : String
  RemotePort : Int
  Description : String
deriving DecidableEq, Repr

/-- ForwardingStats from internal/forwarding/types.go. `time.Time` fields are
abstract Nat timestamps. -/
structure ForwardingStats where
  BytesReceived : Int
  BytesSent : Int
  ConnectionCount : Int
  ActiveConnections : Int
  StartTime : Nat
  LastActivity : Nat
  ErrorCount : Int
  LastError : String
deriving DecidableEq, Repr

/-- ForwardingSession from internal/forwarding/types.go. The `net.Listener`
handle is abstracted to the Bool `listenerSet` (listener != nil), the
`done chan struct\x7b\x7d` to the Bool `doneClosed` (channel already closed),
and the atomic int32 `active` to a Bool. -/
structure ForwardingSession where
  Rule : ForwardingRule
  Stats : ForwardingStats
  listenerSet : Bool
  doneClosed : Bool
  active : Bool
deriving DecidableEq, Repr

/-- types.go IsActive: atomic load of the active flag. -/
def ForwardingSession.IsActive (fs : ForwardingSession) : Bool :=
  fs.active

/-- types.go SetActive: atomic store of the active flag. -/
def ForwardingSession.SetActive (fs : ForwardingSession) (a : Bool) : ForwardingSession :=
  { fs with active := a }

/-- types.go AddBytesReceived: atomic add plus LastActivity update
(`now` stands for time.Now()). -/
def ForwardingSession.AddBytesReceived (fs : ForwardingSession) (bytes : Int) (now : Nat) :
    ForwardingSession :=
  { fs with Stats := { fs.Stats with
      BytesReceived := fs.Stats.BytesReceived + bytes
      LastActivity := now } }

/-- types.go AddBytesSent: atomic add plus LastActivity update. -/
def ForwardingSession.AddBytesSent (fs : ForwardingSession) (bytes : Int) (now : Nat) :
    ForwardingSession :=
  { fs with Stats := { fs.Stats with
      BytesSent := fs.Stats.BytesSent + bytes
      LastActivity := now } }

/-- types.go IncrementConnections: bumps both the total and the active count. -/
def ForwardingSession.IncrementConnections (fs : ForwardingSession) : ForwardingSession :=
  { fs with Stats := { fs.Stats with
      ConnectionCount := fs.Stats.ConnectionCount + 1
      ActiveConnections := fs.Stats.ActiveConnections + 1 } }

/-- types.go DecrementActiveConnections. -/
def ForwardingSession.DecrementActiveConnections (fs : ForwardingSession) : ForwardingSession :=
  { fs with Stats := { fs.Stats with
      ActiveConnections := fs.Stats.ActiveConnections - 1 } }

/-- types.go IncrementErrors: bumps the error count and records the message. -/
def ForwardingSession.IncrementErrors (fs : ForwardingSession) (err : String) :
    ForwardingSession :=
  { fs with Stats := { fs.Stats with
      ErrorCount := fs.Stats.ErrorCount + 1
      LastError := err } }

/-! Association-list model of `sync.Map`. -/

/-- sync.Map Load. -/
def lookupKey (k : String) : List (String × α) → Option α
  | [] => none
  | (k', v) :: rest => if k' = k then some v else lookupKey k rest

/-- sync.Map Delete. -/
def eraseKey (k : String) : List (String × α) → List (String × α)
  | [] => []
  | (k', v) :: rest => if k' = k then eraseKey k rest else (k', v) :: eraseKey k rest

/-- sync.Map Store (replace-or-insert). -/
def storeKey (k : String) (v : α) (l : List (String × α)) : List (String × α) :=
  (k, v) :: eraseKey k l

/-- SSHHost record from internal/config/ssh.go (Port is a string there). -/
structure SSHHost where
  Name : String
  Host : String
  User : String
  Port : String
  Identity : String
deriving DecidableEq, Repr

/-- An `*ssh.Client` in the pool, identified by the order in which it was
dialed; the identity lets the proofs observe whether a new transport was
created or an existing one reused. -/
structure SSHClient where
  clientId : Nat
deriving DecidableEq, Repr

/-- ForwardingManager state: the session registry and the SSH client pool
(both sync.Map in the source). `createdCount` counts transports dialed so far
(the spec's injectable "new transport created" counter) and doubles as the
next client identity; `closedClientIds` records clients on which Close was
called after a failed liveness probe. -/
structure ForwardingManager where
  sessions : List (String × ForwardingSession)
  sshClients : List (String × SSHClient)
  createdCount : Nat
  closedClientIds : List Nat
deriving DecidableEq, Repr

/-- NewManager. -/
def NewManager : ForwardingManager :=
  { sessions := [], sshClients := [], createdCount := 0, closedClientIds := [] }

/-- The zero-valued ForwardingStats a fresh session gets in StartForwarding,
with StartTime set to time.Now() (`now`). -/
def initialStats (now : Nat) : ForwardingStats :=
  { BytesReceived := 0, BytesSent := 0, ConnectionCount := 0, ActiveConnections := 0,
    StartTime := now, LastActivity := 0, ErrorCount := 0, LastError := "" }

/-- ForwardingManager.StartForwarding. The dispatch to the type-specific
starter (startLocalForwarding / startRemoteForwarding / startDynamicForwarding)
performs network effects, so its outcome is passed in as `starterResult`; on
success every starter has installed the session's listener
(`session.listener = listener`) before returning nil, which the model records
as `listenerSet := true`. On starter failure the fresh registration is deleted
again and the error returned; on success SetActive(true) runs and nil is
returned. -/
def StartForwarding (fm : ForwardingManager) (rule : ForwardingRule)
    (starterResult : Except String Unit) (now : Nat) :
    ForwardingManager × Except String Unit :=
  match lookupKey rule.ID fm.sessions with
  | some _ => (fm, .error ("forwarding session " ++ rule.ID ++ " already exists"))
  | none =>
    let session : ForwardingSession :=
      { Rule := rule, Stats := initialStats now
        listenerSet := false, doneClosed := false, active := false }
    let fm1 : ForwardingManager := { fm with sessions := storeKey rule.ID session fm.sessions }
    match starterResult with
    | .error e => ({ fm1 with sessions := eraseKey rule.ID fm1.sessions }, .error e)
    | .ok _ =>
      let session1 := ({ session with listenerSet := true }).SetActive true
      ({ fm1 with sessions := storeKey rule.ID session1 fm1.sessions }, .ok ())

/-- Result of StopForwarding. `doubleClose` models the Go runtime panic that
`close` raises on an already-closed channel. -/
inductive StopResult
  | ok
  | err (msg : String)
  | doubleClose
deriving DecidableEq, Repr

/-- ForwardingManager.StopForwarding: load the session (error if absent),
SetActive(false), close the listener if present, close the done channel
(a panic if it was already closed), delete the registry entry. -/
def StopForwarding (fm : ForwardingManager) (sessionID : String) :
    ForwardingManager × StopResult :=
  match lookupKey sessionID fm.sessions with
  | none => (fm, .err ("session " ++ sessionID ++ " not found"))
  | some session =>
    let session1 := session.SetActive false
    let session2 :=
      if session1.listenerSet then { session1 with listenerSet := false } else session1
    if session2.doneClosed then
      (fm, .doubleClose)
    else
      ({ fm with sessions := eraseKey sessionID fm.sessions }, .ok)

/-- ForwardingManager.GetSession. -/
def GetSession (fm : ForwardingManager) (sessionID : String) : Option ForwardingSession :=
  lookupKey sessionID fm.sessions

/-- ForwardingManager.GetAllSessions. -/
def GetAllSessions (fm : ForwardingManager) : List ForwardingSession :=
  fm.sessions.map Prod.snd

/-- The pool key built in getSSHClient: fmt.Sprintf with user, host, port. -/
def clientKey (host : SSHHost) : String :=
  host.User ++ "@" ++ host.Host ++ ":" ++ host.Port

/-- ForwardingManager.createSSHClient: loads the key and dials; both effects
are summarised by `dialErr` (none = the dial succeeded and authenticated).
A successful dial yields a brand-new client carrying the next identity and
bumps the created-transport counter. -/
def createSSHClient (fm : ForwardingManager) (dialErr : Option String) :
    ForwardingManager × Except String SSHClient :=
  match dialErr with
  | some e => (fm, .error ("failed to connect to SSH server: " ++ e))
  | none =>
    ({ fm with createdCount := fm.createdCount + 1 },
     .ok { clientId := fm.createdCount })

/-- The tail of getSSHClient shared by the miss and the evicted paths:
create a new SSH client and store it under `key`. -/
def dialAndStore (fm : ForwardingManager) (key : String) (dialErr : Option String) :
    ForwardingManager × Except String SSHClient :=
  match createSSHClient fm dialErr with
  | (fm1, .error e) => (fm1, .error e)
  | (fm1, .ok client) =>
    ({ fm1 with sshClients := storeKey key client fm1.sshClients }, .ok client)

/-- ForwardingManager.getSSHClient: on a pool hit the cached client is probed
with a keepalive SendRequest (`keepaliveOk` is that probe's outcome); a live
client is returned as-is, a dead one is deleted from the pool and closed, and
a fresh client is dialed and stored. On a pool miss a fresh client is dialed
and stored. -/
def getSSHClient (fm : ForwardingManager) (host : SSHHost)
    (keepaliveOk : Bool) (dialErr : Option String) :
    ForwardingManager × Except String SSHClient :=
  let key := clientKey host
  match lookupKey key fm.sshClients with
  | some client =>
    if keepaliveOk then
      (fm, .ok client)
    else
      let fm1 : ForwardingManager :=
        { fm with sshClients := eraseKey key fm.sshClients
                  closedClientIds := client.clientId :: fm.closedClientIds }
      dialAndStore fm1 key dialErr
  | none => dialAndStore fm key dialErr

/-! Stream pump: copyWithStats / forwardData from internal/forwarding/session.go. -/

/-- Outcome of one src.Read in the copy loop: either end-of-stream (io.EOF)
or a failure carrying a message. -/
inductive ReadErr
  | eof
  | fail (msg : String)
deriving DecidableEq, Repr

/-- One iteration of the copyWithStats loop as produced by the environment:
the read returned `nr` bytes and possibly an error, and (when `nr > 0`) the
subsequent dst.Write reported `nw` bytes actually written and possibly an
error. Go's io contract allows a read to return data together with an error,
and a write to report a partial count together with an error. -/
structure PumpStep where
  nr : Nat
  readErr : Option ReadErr
  nw : Nat
  writeErr : Option String
deriving DecidableEq, Repr

/-- copyWithStats from session.go: the copy loop over a trace of read/write
outcomes, accumulating `written` (the function's local counter of bytes
actually written to dst) and `reported` (the total passed to statsCallback,
which the callers accumulate into BytesSent / BytesReceived). Returns
(written, reported, error). An exhausted trace models a copy still in
flight: the totals observed so far, no error yet. -/
def copyWithStats : List PumpStep → Int → Int → Int × Int × Option String
  | [], written, reported => (written, reported, none)
  | step :: rest, written, reported =>
    if 0 < step.nr then
      let written1 := if 0 < step.nw then written + step.nw else written
      let reported1 := if 0 < step.nw then reported + step.nw else reported
      match step.writeErr with
      | some ew => (written1, reported1, some ew)
      | none =>
        if step.nr ≠ step.nw then
          (written1, reported1, some "short write")
        else
          match step.readErr with
          | some .eof => (written1, reported1, none)
          | some (.fail e) => (written1, reported1, some e)
          | none => copyWithStats rest written1 reported1
    else
      match step.readErr with
      | some .eof => (written, reported, none)
      | some (.fail e) => (written, reported, some e)
      | none => copyWithStats rest written reported

/-! SOCKS5 negotiator from internal/forwarding/session.go. Bytes are Nat
values (Go byte); each conn.Read is an environment input, either a failure
or the bytes it produced (the source reads into a 256-byte buffer and only
ever inspects indices below the returned count, so the buffer itself needs
no modelling). -/

/-- Indexing buf[i] for byte buffers (every access in the source is guarded
to be below the read count, so the default 0 is never produced on the paths
the code takes). -/
def byteAt : List Nat → Nat → Nat
  | [], _ => 0
  | b :: _, 0 => b
  | _ :: rest, n + 1 => byteAt rest n

/-- Go string(bytes) for the ASCII domain names SOCKS5 carries. -/
def bytesToString (l : List Nat) : String :=
  String.mk (l.map Char.ofNat)

/-- socks5Handshake from session.go. `greeting` and `request` are the
outcomes of the two conn.Read calls. Returns the list of byte strings the
handshake wrote to conn (only the method-selection message [5, 0], sent
between the two reads) together with the target address or the error. -/
def socks5Handshake (greeting request : Except String (List Nat)) :
    List (List Nat) × Except String String :=
  match greeting with
  | .error e => ([], .error e)
  | .ok buf =>
    if buf.length < 3 ∨ byteAt buf 0 ≠ 5 then
      ([], .error "unsupported SOCKS version")
    else
      let writes := [[5, 0]]
      match request with
      | .error e => (writes, .error e)
      | .ok buf =>
        let n := buf.length
        if n < 7 ∨ byteAt buf 0 ≠ 5 ∨ byteAt buf 1 ≠ 1 then
          (writes, .error "invalid SOCKS5 request")
        else if byteAt buf 3 = 1 then
          if n < 10 then
            (writes, .error "invalid IPv4 address")
          else
            (writes, .ok (Nat.repr (byteAt buf 4) ++ "." ++ Nat.repr (byteAt buf 5) ++ "."
              ++ Nat.repr (byteAt buf 6) ++ "." ++ Nat.repr (byteAt buf 7) ++ ":"
              ++ Nat.repr (byteAt buf 8 * 256 + byteAt buf 9)))
        else if byteAt buf 3 = 3 then
          if n < 7 then
            (writes, .error "invalid domain name")
          else
            let domainLen := byteAt buf 4
            if n < 7 + domainLen then
              (writes, .error "incomplete domain name")
            else
              let domain := bytesToString ((buf.drop 5).take domainLen)
              let port := byteAt buf (5 + domainLen) * 256 + byteAt buf (6 + domainLen)
              (writes, .ok (domain ++ ":" ++ Nat.repr port))
        else
          (writes, .error "unsupported address type")

/-- The fixed 10-byte general-failure reply written when the post-handshake
dial fails. -/
def socks5FailureReply : List Nat := [5, 5, 0, 1, 0, 0, 0, 0, 0, 0]

/-- The fixed 10-byte success reply (bind address 0.0.0.0:0). -/
def socks5SuccessReply : List Nat := [5, 0, 0, 1, 0, 0, 0, 0, 0, 0]

/-- handleSOCKS5Connection from session.go, up to the point where pumping
starts: runs the handshake; on handshake failure the handler records the
error and returns without writing anything further; otherwise it dials the
target through the SSH client (`dialOk` is that dial's outcome) and writes
the failure reply or the success reply. Returns every byte string written to
the client connection and the negotiated target (or the error). -/
def handleSOCKS5Connection (greeting request : Except String (List Nat)) (dialOk : Bool) :
    List (List Nat) × Except String String :=
  match socks5Handshake greeting request with
  | (writes, .error e) => (writes, .error e)
  | (writes, .ok target) =>
    if dialOk then
      (writes ++ [socks5SuccessReply], .ok target)
    else
      (writes ++ [socks5FailureReply], .error ("failed to connect to " ++ target))

/-! Statistics operation traces, for the concurrent-mutation invariants.
Each connection handler performs IncrementConnections on entry and defers
DecrementActiveConnections; an interleaving of many handlers is a list of
operations applied to the shared session. -/

/-- One atomic statistics mutation from types.go. -/
inductive StatOp
  | addBytesReceived (bytes : Int) (now : Nat)
  | addBytesSent (bytes : Int) (now : Nat)
  | incrementConnections
  | decrementActiveConnections
  | incrementErrors (err : String)
deriving DecidableEq, Repr

/-- Apply one statistics mutation to the session. -/
def applyStatOp (fs : ForwardingSession) : StatOp → ForwardingSession
  | .addBytesReceived bytes now => fs.AddBytesReceived bytes now
  | .addBytesSent bytes now => fs.AddBytesSent bytes now
  | .incrementConnections => fs.IncrementConnections
  | .decrementActiveConnections => fs.DecrementActiveConnections
  | .incrementErrors err => fs.IncrementErrors err

/-- Apply an interleaved trace of statistics mutations. -/
def applyStatOps (fs : ForwardingSession) : List StatOp → ForwardingSession
  | [] => fs
  | op :: ops => applyStatOps (applyStatOp fs op) ops

/-- Number of IncrementConnections operations in a trace. -/
def incCount : List StatOp → Int
  | [] => 0
  | .incrementConnections :: ops => incCount ops + 1
  | _ :: ops => incCount ops

/-- Number of DecrementActiveConnections operations in a trace. -/
def decCount : List StatOp → Int
  | [] => 0
  | .decrementActiveConnections :: ops => decCount ops + 1
  | _ :: ops => decCount ops

/-- The byte amounts fed to AddBytesReceived / AddBytesSent are positive:
every call site is the statsCallback in copyWithStats, invoked only under
the guard nw > 0 with the written count nw. -/
def PositiveAdds (ops : List StatOp) : Prop :=
  ∀ op ∈ ops,
    match op with
    | .addBytesReceived bytes _ => 0 < bytes
    | .addBytesSent bytes _ => 0 < bytes
    | _ => True

/-- Every DecrementActiveConnections is preceded by a matching
IncrementConnections: each handler increments on entry and decrements once
on exit, so in every prefix of the interleaving the decrements never
outnumber the increments. -/
def HandlerPaired (ops : List StatOp) : Prop :=
  ∀ n, decCount (ops.take n) ≤ incCount (ops.take n)

/-! CLI rule parser from internal/cli (parseForwardingRule). -/

/-- Go strings.Split on a single separator character (Split never returns an
empty list; splitting the empty string yields one empty field). -/
def goSplit (sep : Char) : List Char → List (List Char)
  | [] => [[]]
  | c :: rest =>
    if c = sep then
      [] :: goSplit sep rest
    else
      match goSplit sep rest with
      | [] => [[c]]
      | p :: ps => (c :: p) :: ps

/-- Go strings.ToUpper, restricted to the ASCII mapping (which is all the
parser's comparisons against "D" and "R" can observe). -/
def goToUpper (l : List Char) : List Char :=
  l.map Char.toUpper

/-- Accumulate decimal digits; none when a non-digit appears. -/
def digitsVal (l : List Char) : Option Nat :=
  l.foldl
    (fun acc c =>
      acc.bind fun a => if c.isDigit then some (a * 10 + (c.toNat - 48)) else none)
    (some 0)

/-- Go strconv.Atoi on a 64-bit platform: optional single sign, at least one
decimal digit, no other characters, result within the int64 range (out of
range is an error). -/
def goAtoi (s : List Char) : Option Int :=
  match s with
  | [] => none
  | '+' :: rest =>
    if rest = [] then none
    else (digitsVal rest).bind fun n =>
      if n ≤ 2 ^ 63 - 1 then some (Int.ofNat n) else none
  | '-' :: rest =>
    if rest = [] then none
    else (digitsVal rest).bind fun n =>
      if n ≤ 2 ^ 63 then some (-(Int.ofNat n)) else none
  | _ =>
    (digitsVal s).bind fun n =>
      if n ≤ 2 ^ 63 - 1 then some (Int.ofNat n) else none

/-- The colon-separated fields of a rule string, as the parser sees them. -/
def ruleParts (s : String) : List (List Char) :=
  goSplit ':' s.data

/-- parseForwardingRule from internal/cli: splits the rule text on ":",
derives the id "cli-<length of the rule text>", and matches the dynamic
(2 fields, first upper-cases to "D"), remote (4 fields, first upper-cases to
"R") and local (3 fields) encodings in that order; everything else, and any
field Atoi rejects, is an error. Unset rule fields keep Go zero values. -/
def parseForwardingRule (ruleStr : String) : Except String ForwardingRule :=
  let parts := goSplit ':' ruleStr.data
  let id := "cli-" ++ Nat.repr ruleStr.length
  if parts.length = 2 ∧ goToUpper (parts.getD 0 []) = ['D'] then
    match goAtoi (parts.getD 1 []) with
    | none => .error ("invalid port number: " ++ String.mk (parts.getD 1 []))
    | some port =>
      .ok { ID := id, type := .DynamicForward, LocalHost := "localhost",
            LocalPort := port, RemoteHost := "", RemotePort := 0,
            Description := "SOCKS proxy on port " ++ toString port }
  else if parts.length = 4 ∧ goToUpper (parts.getD 0 []) = ['R'] then
    match goAtoi (parts.getD 1 []) with
    | none => .error ("invalid local port: " ++ String.mk (parts.getD 1 []))
    | some localPort =>
      match goAtoi (parts.getD 3 []) with
      | none => .error ("invalid remote port: " ++ String.mk (parts.getD 3 []))
      | some remotePort =>
        .ok { ID := id, type := .RemoteForward, LocalHost := "localhost",
              LocalPort := localPort, RemoteHost := String.mk (parts.getD 2 []),
              RemotePort := remotePort,
              Description := "Remote " ++ toString localPort ++ " -> "
                ++ String.mk (parts.getD 2 []) ++ ":" ++ toString remotePort }
  else if parts.length = 3 then
    match goAtoi (parts.getD 0 []) with
    | none => .error ("invalid local port: " ++ String.mk (parts.getD 0 []))
    | some localPort =>
      match goAtoi (parts.getD 2 []) with
      | none => .error ("invalid remote port: " ++ String.mk (parts.getD 2 []))
      | some remotePort =>
        .ok { ID := id, type := .LocalForward, LocalHost := "localhost",
              LocalPort := localPort, RemoteHost := String.mk (parts.getD 1 []),
              RemotePort := remotePort,
              Description := "Local " ++ toString localPort ++ " -> "
                ++ String.mk (parts.getD 1 []) ++ ":" ++ toString remotePort }
  else
    .error "invalid forwarding rule format. Use: [R:]local_port:remote_host:remote_port or D:port"

/-! Helper lemmas about the association-list registry. -/

theorem lookupKey_storeKey_self (k : String) (v : α) (l : List (String × α)) :
    lookupKey k (storeKey k v l) = some v := by
  simp [storeKey, lookupKey]

theorem eraseKey_eraseKey (k : String) (l : List (String × α)) :
    eraseKey k (eraseKey k l) = eraseKey k l := by
  induction l with
  | nil => rfl
  | cons p rest ih =>
    obtain ⟨k', v⟩ := p
    by_cases h : k' = k <;> simp [eraseKey, h, ih]

theorem eraseKey_of_lookupKey_none (k : String) (l : List (String × α))
    (h : lookupKey k l = none) : eraseKey k l = l := by
  induction l with
  | nil => rfl
  | cons p rest ih =>
    obtain ⟨k', v⟩ := p
    by_cases hk : k' = k
    · simp [lookupKey, hk] at h
    · simp [lookupKey, hk] at h
      simp [eraseKey, hk, ih h]

theorem lookupKey_eraseKey_self (k : String) (l : List (String × α)) :
    lookupKey k (eraseKey k l) = none := by
  induction l with
  | nil => rfl
  | cons p rest ih =>
    obtain ⟨k', v⟩ := p
    by_cases hk : k' = k <;> simp [eraseKey, lookupKey, hk, ih]

theorem keys_ne_of_lookupKey_none (k : String) (l : List (String × α))
    (h : lookupKey k l = none) : ∀ p ∈ l, p.1 ≠ k := by
  induction l with
  | nil => intro p hp; cases hp
  | cons q rest ih =>
    obtain ⟨k', v⟩ := q
    by_cases hk : k' = k
    · simp [lookupKey, hk] at h
    · simp [lookupKey, hk] at h
      intro p hp
      rcases List.mem_cons.mp hp with rfl | hp2
      · exact hk
      · exact ih h p hp2

/-- Invariant of the session registry: every entry is stored under its own
rule id (StartForwarding is the only writer and always uses rule.ID as the
key). -/
def RegistryInv (fm : ForwardingManager) : Prop :=
  ∀ p ∈ fm.sessions, p.2.Rule.ID = p.1

/-- Demo rule shared by the concrete evaluations below. -/
def demoRule : ForwardingRule :=
  { ID := "cli-6", type := .DynamicForward, LocalHost := "localhost", LocalPort := 1080,
    RemoteHost := "", RemotePort := 0, Description := "SOCKS proxy on port 1080" }

/-- Demo session already registered under "cli-6". -/
def demoSession : ForwardingSession :=
  { Rule := demoRule, Stats := initialStats 0, listenerSet := true,
    doneClosed := false, active := true }

/-- Demo manager with the demo session registered. -/
def demoManager : ForwardingManager :=
  { sessions := [("cli-6", demoSession)], sshClients := [], createdCount := 0,
    closedClientIds := [] }

/-- Manager state after successfully starting demoRule on a fresh manager. -/
def startedDemo : ForwardingManager :=
  (StartForwarding NewManager demoRule (.ok ()) 0).1

/-- C1: a second StartForwarding for an id already in the registry returns
the "already exists" error and leaves the whole manager — in particular the
existing session and its ForwardingStats — exactly as it was. -/
theorem StartForwarding_already_exists (fm : ForwardingManager) (rule : ForwardingRule)
    (starterResult : Except String Unit) (now : Nat) (s : ForwardingSession)
    (h : GetSession fm rule.ID = some s) :
    StartForwarding fm rule starterResult now
      = (fm, .error ("forwarding session " ++ rule.ID ++ " already exists"))
    ∧ GetSession (StartForwarding fm rule starterResult now).1 rule.ID = some s
    ∧ (GetSession (StartForwarding fm rule starterResult now).1 rule.ID).map
        ForwardingSession.Stats = some s.Stats := by
  have h' : lookupKey rule.ID fm.sessions = some s := h
  refine ⟨?_, ?_, ?_⟩ <;> simp [StartForwarding, GetSession, h']

/-- Witness for C1 at a concrete manager that already holds "cli-6". -/
theorem StartForwarding_already_exists_witness :
    StartForwarding demoManager demoRule (.ok ()) 5
      = (demoManager, .error ("forwarding session " ++ demoRule.ID ++ " already exists"))
    ∧ GetSession (StartForwarding demoManager demoRule (.ok ()) 5).1 demoRule.ID
        = some demoSession
    ∧ (GetSession (StartForwarding demoManager demoRule (.ok ()) 5).1 demoRule.ID).map
        ForwardingSession.Stats = some demoSession.Stats :=
  StartForwarding_already_exists demoManager demoRule (.ok ()) 5 demoSession (by rfl)

/-- C2: when the type-specific starter fails, StartForwarding deletes the
registration it just made and returns the starter's error, so the manager —
registry included — is exactly as it was before the call. -/
theorem StartForwarding_starter_failure_rolls_back (fm : ForwardingManager)
    (rule : ForwardingRule) (e : String) (now : Nat)
    (h : GetSession fm rule.ID = none) :
    StartForwarding fm rule (.error e) now = (fm, .error e) := by
  have h' : lookupKey rule.ID fm.sessions = none := h
  have herase : eraseKey rule.ID fm.sessions = fm.sessions :=
    eraseKey_of_lookupKey_none _ _ h'
  simp [StartForwarding, h', storeKey, eraseKey, eraseKey_eraseKey, herase]

/-- Witness for C2: a failing starter on a fresh manager leaves it fresh. -/
theorem StartForwarding_starter_failure_rolls_back_witness :
    StartForwarding NewManager demoRule (.error "failed to listen on localhost:1080") 0
      = (NewManager, .error "failed to listen on localhost:1080") :=
  StartForwarding_starter_failure_rolls_back NewManager demoRule
    "failed to listen on localhost:1080" 0 (by rfl)

/-- C3: for a not-yet-registered id, a successful StartForwarding immediately
followed by StopForwarding succeeds in both steps and leaves the id absent:
GetSession misses and no session in GetAllSessions carries that rule id. -/
theorem start_then_stop_removes_id (fm : ForwardingManager) (rule : ForwardingRule)
    (now : Nat) (hinv : RegistryInv fm) (habs : GetSession fm rule.ID = none) :
    (StartForwarding fm rule (.ok ()) now).2 = .ok ()
    ∧ (StopForwarding (StartForwarding fm rule (.ok ()) now).1 rule.ID).2 = .ok
    ∧ GetSession (StopForwarding (StartForwarding fm rule (.ok ()) now).1 rule.ID).1 rule.ID
        = none
    ∧ ∀ s ∈ GetAllSessions
          (StopForwarding (StartForwarding fm rule (.ok ()) now).1 rule.ID).1,
        s.Rule.ID ≠ rule.ID := by
  have habs' : lookupKey rule.ID fm.sessions = none := habs
  have herase : eraseKey rule.ID fm.sessions = fm.sessions :=
    eraseKey_of_lookupKey_none _ _ habs'
  have hstart : (StartForwarding fm rule (.ok ()) now).1.sessions
      = (rule.ID,
          ({ Rule := rule, Stats := initialStats now, listenerSet := true,
             doneClosed := false, active := false } : ForwardingSession).SetActive true)
        :: fm.sessions := by
    simp [StartForwarding, habs', storeKey, eraseKey, eraseKey_eraseKey, herase]
  refine ⟨by simp [StartForwarding, habs'], ?_, ?_, ?_⟩
  · simp [StopForwarding, hstart, lookupKey, ForwardingSession.SetActive]
  · simp [StopForwarding, GetSession, hstart, lookupKey, ForwardingSession.SetActive,
      eraseKey, herase, habs']
  · intro s hs
    have hsess : (StopForwarding (StartForwarding fm rule (.ok ()) now).1 rule.ID).1.sessions
        = fm.sessions := by
      simp [StopForwarding, hstart, lookupKey, ForwardingSession.SetActive, eraseKey, herase]
    rw [GetAllSessions, hsess] at hs
    obtain ⟨p, hp, hps⟩ := List.mem_map.mp hs
    rw [← hps, hinv p hp]
    exact keys_ne_of_lookupKey_none rule.ID fm.sessions habs' p hp

/-- Witness for C3 on a fresh manager. -/
theorem start_then_stop_removes_id_witness :
    (StartForwarding NewManager demoRule (.ok ()) 0).2 = .ok ()
    ∧ (StopForwarding (StartForwarding NewManager demoRule (.ok ()) 0).1 demoRule.ID).2 = .ok
    ∧ GetSession (StopForwarding (StartForwarding NewManager demoRule (.ok ()) 0).1
        demoRule.ID).1 demoRule.ID = none
    ∧ ∀ s ∈ GetAllSessions
          (StopForwarding (StartForwarding NewManager demoRule (.ok ()) 0).1 demoRule.ID).1,
        s.Rule.ID ≠ demoRule.ID :=
  start_then_stop_removes_id NewManager demoRule 0
    (by intro p hp; cases hp) (by rfl)

/-- C6 counterexample: on the code, a second sequential StopForwarding for an
already-stopped id returns the ordinary "session ... not found" error — not a
double-close of the shutdown channel — because the first call already removed
the id from the registry. -/
theorem StopForwarding_second_call_is_ordinary_error :
    (StopForwarding (StopForwarding startedDemo "cli-6").1 "cli-6").2
      = .err "session cli-6 not found"
    ∧ (StopForwarding (StopForwarding startedDemo "cli-6").1 "cli-6").2
      ≠ .doubleClose := by
  have h1 : (StopForwarding (StopForwarding startedDemo "cli-6").1 "cli-6").2
      = .err "session cli-6 not found" := by decide
  refine ⟨h1, ?_⟩
  rw [h1]
  intro hcontra
  exact StopResult.noConfusion hcontra

/-- C6 amended: once a StopForwarding call for an id has completed
successfully, a second sequential call for the same id returns the ordinary
"not found" error (and leaves the manager unchanged); the double-close of the
shutdown channel is reachable only when two StopForwarding calls for the same
id race, both loading the session before either deletes it. -/
theorem StopForwarding_not_found (fm : ForwardingManager) (id : String)
    (h : lookupKey id fm.sessions = none) :
    StopForwarding fm id = (fm, .err ("session " ++ id ++ " not found")) := by
  simp [StopForwarding, h]

theorem StopForwarding_ok_sessions (fm : ForwardingManager) (id : String)
    (h : (StopForwarding fm id).2 = .ok) :
    (StopForwarding fm id).1.sessions = eraseKey id fm.sessions := by
  unfold StopForwarding at h ⊢
  cases hl : lookupKey id fm.sessions with
  | none => rw [hl] at h; simp at h
  | some s =>
    by_cases hL : s.listenerSet
      <;> by_cases hd : s.doneClosed
      <;> simp [hl, ForwardingSession.SetActive, hL, hd] at h ⊢

theorem StopForwarding_not_reentrant_sequential (fm : ForwardingManager) (id : String)
    (h : (StopForwarding fm id).2 = .ok) :
    StopForwarding (StopForwarding fm id).1 id
      = ((StopForwarding fm id).1, .err ("session " ++ id ++ " not found")) := by
  apply StopForwarding_not_found
  rw [StopForwarding_ok_sessions fm id h]
  exact lookupKey_eraseKey_self id fm.sessions

/-- Witness for the amended C6: stop the started demo session, then stop it
again; the second call yields the ordinary not-found error. -/
theorem StopForwarding_not_reentrant_sequential_witness :
    (StopForwarding startedDemo "cli-6").2 = .ok
    ∧ StopForwarding (StopForwarding startedDemo "cli-6").1 "cli-6"
        = ((StopForwarding startedDemo "cli-6").1,
           .err ("session " ++ "cli-6" ++ " not found")) :=
  ⟨by decide, StopForwarding_not_reentrant_sequential startedDemo "cli-6" (by decide)⟩

/-- C7: the transport pool is keyed by user@host:port, so two hosts agreeing
on those three fields address the same pool entry; while the cached transport
passes the keepalive probe it is shared and no new transport is dialed (the
created-transport counter is untouched and the manager state is unchanged);
after a miss one transport is dialed, and a second request for the same
identity reuses it, leaving the counter at one dial; on a failed probe the
stale entry is evicted and closed and a fresh transport is dialed and stored
under the same key. -/
theorem getSSHClient_pooling (h1 h2 : SSHHost)
    (hu : h2.User = h1.User) (hh : h2.Host = h1.Host) (hp : h2.Port = h1.Port)
    (fm : ForwardingManager) :
    (∀ c, lookupKey (clientKey h1) fm.sshClients = some c →
        getSSHClient fm h2 true none = (fm, .ok c))
    ∧ (lookupKey (clientKey h1) fm.sshClients = none →
        (getSSHClient fm h1 true none).2 = .ok { clientId := fm.createdCount }
        ∧ (getSSHClient fm h1 true none).1.createdCount = fm.createdCount + 1
        ∧ getSSHClient ((getSSHClient fm h1 true none).1) h2 true none
            = ((getSSHClient fm h1 true none).1, .ok { clientId := fm.createdCount }))
    ∧ (∀ c, lookupKey (clientKey h1) fm.sshClients = some c →
        (getSSHClient fm h1 false none).2 = .ok { clientId := fm.createdCount }
        ∧ (getSSHClient fm h1 false none).1.createdCount = fm.createdCount + 1
        ∧ c.clientId ∈ (getSSHClient fm h1 false none).1.closedClientIds
        ∧ lookupKey (clientKey h1) (getSSHClient fm h1 false none).1.sshClients
            = some { clientId := fm.createdCount }) := by
  have hkey : clientKey h2 = clientKey h1 := by
    unfold clientKey; rw [hu, hh, hp]
  refine ⟨?_, ?_, ?_⟩
  · intro c hc
    simp [getSSHClient, hkey, hc]
  · intro hnone
    have hfirst : getSSHClient fm h1 true none
        = ({ fm with
              createdCount := fm.createdCount + 1,
              sshClients := storeKey (clientKey h1)
                ({ clientId := fm.createdCount } : SSHClient) fm.sshClients },
           .ok { clientId := fm.createdCount }) := by
      simp [getSSHClient, dialAndStore, createSSHClient, hnone]
    refine ⟨by rw [hfirst], by rw [hfirst], ?_⟩
    rw [hfirst]
    simp [getSSHClient, hkey, lookupKey_storeKey_self]
  · intro c hc
    have heval : getSSHClient fm h1 false none
        = ({ fm with
              createdCount := fm.createdCount + 1,
              sshClients := storeKey (clientKey h1)
                ({ clientId := fm.createdCount } : SSHClient)
                (eraseKey (clientKey h1) fm.sshClients),
              closedClientIds := c.clientId :: fm.closedClientIds },
           .ok { clientId := fm.createdCount }) := by
      simp [getSSHClient, dialAndStore, createSSHClient, hc]
    rw [heval]
    refine ⟨rfl, rfl, List.mem_cons_self _ _, ?_⟩
    exact lookupKey_storeKey_self _ _ _

/-- Demo host for the pool witness. -/
def demoHost : SSHHost :=
  { Name := "web", Host := "10.0.0.2", User := "root", Port := "22", Identity := "" }

/-- Second demo host: same user, host and port as demoHost, different alias. -/
def demoHost2 : SSHHost :=
  { Name := "web-alias", Host := "10.0.0.2", User := "root", Port := "22",
    Identity := "/home/u/.ssh/id_rsa" }

/-- Witness for C7: on a fresh manager, the first request dials one
transport, a second request for the same identity (via a different Host
record) reuses it; and with a cached-but-dead transport the entry is evicted,
closed and replaced. -/
theorem getSSHClient_pooling_witness :
    (getSSHClient NewManager demoHost true none).2 = .ok { clientId := 0 }
    ∧ (getSSHClient NewManager demoHost true none).1.createdCount = 1
    ∧ getSSHClient ((getSSHClient NewManager demoHost true none).1) demoHost2 true none
        = ((getSSHClient NewManager demoHost true none).1, .ok { clientId := 0 })
    ∧ (∀ c, lookupKey (clientKey demoHost)
          ((getSSHClient NewManager demoHost true none).1).sshClients = some c →
        getSSHClient ((getSSHClient NewManager demoHost true none).1) demoHost2 true none
          = ((getSSHClient NewManager demoHost true none).1, .ok c)) := by
  have hmain := getSSHClient_pooling demoHost demoHost2 (by rfl) (by rfl) (by rfl) NewManager
  have hmiss := hmain.2.1 (by rfl)
  refine ⟨by simpa using hmiss.1, by simpa using hmiss.2.1, by simpa using hmiss.2.2, ?_⟩
  intro c hc
  exact (getSSHClient_pooling demoHost demoHost2 (by rfl) (by rfl) (by rfl)
    ((getSSHClient NewManager demoHost true none).1)).1 c hc

/-- The accounting callback and the local `written` counter advance in
lockstep: both are bumped by the same `nw` under the same `nw > 0` guard. -/
theorem copyWithStats_reported_sub (steps : List PumpStep) (w r : Int) :
    (copyWithStats steps w r).2.1 - r = (copyWithStats steps w r).1 - w := by
  induction steps generalizing w r with
  | nil => simp [copyWithStats]
  | cons step rest ih =>
    obtain ⟨nr, rerr, nw, werr⟩ := step
    simp only [copyWithStats]
    by_cases h1 : 0 < nr
    · simp only [h1, ite_true]
      cases werr with
      | some ew => by_cases h2 : 0 < nw <;> simp [h2]
      | none =>
        by_cases h3 : nr ≠ nw
        · by_cases h2 : 0 < nw <;> simp [h2, h3]
        · rw [if_neg h3]
          cases rerr with
          | none =>
            by_cases h2 : 0 < nw
            · simp only [h2, ite_true]
              have h4 := ih (w + (nw : Int)) (r + (nw : Int))
              omega
            · simp only [h2, ite_false]
              exact ih w r
          | some e => cases e <;> by_cases h2 : 0 < nw <;> simp [h2]
    · simp only [h1, ite_false]
      cases rerr with
      | none => exact ih w r
      | some e => cases e <;> simp

/-- C5: in each pump direction, the total reported through the accounting
callback (the amount copyWithStats' callers add into BytesSent or
BytesReceived) never exceeds the bytes actually written to that direction's
destination stream — the callback fires only on successful writes and with
the written count, so an interrupted (stopped) copy cannot double-count. -/
theorem copyWithStats_no_overcount (steps : List PumpStep) :
    (copyWithStats steps 0 0).2.1 ≤ (copyWithStats steps 0 0).1 := by
  have h := copyWithStats_reported_sub steps 0 0
  omega

/-! Lemmas about statistics traces. -/

theorem applyStatOps_append (l1 l2 : List StatOp) (fs : ForwardingSession) :
    applyStatOps fs (l1 ++ l2) = applyStatOps (applyStatOps fs l1) l2 := by
  induction l1 generalizing fs with
  | nil => rfl
  | cons op ops ih => simp [applyStatOps, ih]

/-- ActiveConnections after a trace is the initial value plus increments
minus decrements. -/
theorem activeConnections_applyStatOps (ops : List StatOp) (fs : ForwardingSession) :
    (applyStatOps fs ops).Stats.ActiveConnections
      = fs.Stats.ActiveConnections + incCount ops - decCount ops := by
  induction ops generalizing fs with
  | nil => simp [applyStatOps, incCount, decCount]
  | cons op ops ih =>
    cases op <;>
      simp [applyStatOps, applyStatOp, incCount, decCount, ih,
        ForwardingSession.AddBytesReceived, ForwardingSession.AddBytesSent,
        ForwardingSession.IncrementConnections,
        ForwardingSession.DecrementActiveConnections,
        ForwardingSession.IncrementErrors] <;> omega

/-- The four cumulative counters never decrease along a trace whose byte
amounts are positive. -/
theorem counters_mono_applyStatOps (ops : List StatOp) (fs : ForwardingSession)
    (hpos : PositiveAdds ops) :
    fs.Stats.BytesReceived ≤ (applyStatOps fs ops).Stats.BytesReceived
    ∧ fs.Stats.BytesSent ≤ (applyStatOps fs ops).Stats.BytesSent
    ∧ fs.Stats.ConnectionCount ≤ (applyStatOps fs ops).Stats.ConnectionCount
    ∧ fs.Stats.ErrorCount ≤ (applyStatOps fs ops).Stats.ErrorCount := by
  induction ops generalizing fs with
  | nil => simp [applyStatOps]
  | cons op ops ih =>
    have hop := hpos op (List.mem_cons_self op ops)
    have htail : PositiveAdds ops := fun o ho => hpos o (List.mem_cons_of_mem op ho)
    have ihop := ih (applyStatOp fs op) htail
    simp only [applyStatOps] at ihop ⊢
    cases op <;>
      simp only [applyStatOp, ForwardingSession.AddBytesReceived,
        ForwardingSession.AddBytesSent, ForwardingSession.IncrementConnections,
        ForwardingSession.DecrementActiveConnections,
        ForwardingSession.IncrementErrors] at hop ihop ⊢ <;>
      refine ⟨?_, ?_, ?_, ?_⟩ <;> omega

/-- C8: over every interleaving of the statistics operations whose byte
amounts are positive (as at the only call sites) and whose decrements are
each preceded by a matching increment (as the handlers guarantee), starting
from a session with no active connections: ActiveConnections is never
negative at any prefix, and BytesReceived, BytesSent, ConnectionCount and
ErrorCount never decrease from any prefix to any longer prefix. -/
theorem stats_trace_invariants (fs : ForwardingSession) (ops : List StatOp)
    (hpos : PositiveAdds ops) (hpair : HandlerPaired ops)
    (h0 : fs.Stats.ActiveConnections = 0) :
    (∀ n, 0 ≤ (applyStatOps fs (ops.take n)).Stats.ActiveConnections)
    ∧ (∀ m n, m ≤ n →
        (applyStatOps fs (ops.take m)).Stats.BytesReceived
          ≤ (applyStatOps fs (ops.take n)).Stats.BytesReceived
        ∧ (applyStatOps fs (ops.take m)).Stats.BytesSent
          ≤ (applyStatOps fs (ops.take n)).Stats.BytesSent
        ∧ (applyStatOps fs (ops.take m)).Stats.ConnectionCount
          ≤ (applyStatOps fs (ops.take n)).Stats.ConnectionCount
        ∧ (applyStatOps fs (ops.take m)).Stats.ErrorCount
          ≤ (applyStatOps fs (ops.take n)).Stats.ErrorCount) := by
  constructor
  · intro n
    rw [activeConnections_applyStatOps, h0]
    have := hpair n
    omega
  · intro m n hmn
    have hsplit : ops.take n = ops.take m ++ (ops.drop m).take (n - m) := by
      rw [← List.take_add]
      congr 1
      omega
    rw [hsplit, applyStatOps_append]
    apply counters_mono_applyStatOps
    intro o ho
    exact hpos o (List.drop_subset m ops (List.take_subset _ _ ho))

/-- Witness for C8 on a concrete three-operation trace. -/
theorem stats_trace_invariants_witness :
    (∀ n, 0 ≤ (applyStatOps demoSession
        ([StatOp.incrementConnections, StatOp.addBytesSent 100 1,
          StatOp.decrementActiveConnections].take n)).Stats.ActiveConnections)
    ∧ (∀ m n, m ≤ n →
        (applyStatOps demoSession
            ([StatOp.incrementConnections, StatOp.addBytesSent 100 1,
              StatOp.decrementActiveConnections].take m)).Stats.BytesReceived
          ≤ (applyStatOps demoSession
            ([StatOp.incrementConnections, StatOp.addBytesSent 100 1,
              StatOp.decrementActiveConnections].take n)).Stats.BytesReceived
        ∧ (applyStatOps demoSession
            ([StatOp.incrementConnections, StatOp.addBytesSent 100 1,
              StatOp.decrementActiveConnections].take m)).Stats.BytesSent
          ≤ (applyStatOps demoSession
            ([StatOp.incrementConnections, StatOp.addBytesSent 100 1,
              StatOp.decrementActiveConnections].take n)).Stats.BytesSent
        ∧ (applyStatOps demoSession
            ([StatOp.incrementConnections, StatOp.addBytesSent 100 1,
              StatOp.decrementActiveConnections].take m)).Stats.ConnectionCount
          ≤ (applyStatOps demoSession
            ([StatOp.incrementConnections, StatOp.addBytesSent 100 1,
              StatOp.decrementActiveConnections].take n)).Stats.ConnectionCount
        ∧ (applyStatOps demoSession
            ([StatOp.incrementConnections, StatOp.addBytesSent 100 1,
              StatOp.decrementActiveConnections].take m)).Stats.ErrorCount
          ≤ (applyStatOps demoSession
            ([StatOp.incrementConnections, StatOp.addBytesSent 100 1,
              StatOp.decrementActiveConnections].take n)).Stats.ErrorCount) := by
  apply stats_trace_invariants
  · intro op hop
    rcases List.mem_cons.mp hop with rfl | hop
    · trivial
    rcases List.mem_cons.mp hop with rfl | hop
    · norm_num
    rcases List.mem_cons.mp hop with rfl | hop
    · trivial
    · cases hop
  · intro n
    match n with
    | 0 => simp [incCount, decCount]
    | 1 => simp [incCount, decCount]
    | 2 => simp [incCount, decCount]
    | (k + 3) => simp [incCount, decCount]
  · rfl

/-! Lemmas about byte-buffer indexing. -/

theorem byteAt_append_right (l t : List Nat) (n : Nat) :
    byteAt (l ++ t) (l.length + n) = byteAt t n := by
  induction l with
  | nil => simp [byteAt]
  | cons a l ih =>
    have harith : (a :: l).length + n = (l.length + n) + 1 := by
      simp [List.length_cons]; omega
    rw [harith]
    simpa [byteAt] using ih

theorem byteAt_five_cons (a b c d e : Nat) (t : List Nat) (n : Nat) :
    byteAt (a :: b :: c :: d :: e :: t) (5 + n) = byteAt t n := by
  have harith : 5 + n = n + 1 + 1 + 1 + 1 + 1 := by omega
  rw [harith]
  simp [byteAt]

/-- C4: the SOCKS5 negotiator, given a well-formed CONNECT request, yields
the target as "host:port": for the IPv4 address type the dotted-quad and
big-endian port, for the domain-name address type "domain:port"; for address
type 0x04 (IPv6) it fails with the address-type error and the connection
handler writes no reply for the request — the only bytes ever written are
the method-selection message [5, 0] sent before the request was read. -/
theorem socks5_connect_parsing :
    (∀ (g : List Nat) (a b c d p1 p2 : Nat),
      3 ≤ g.length → byteAt g 0 = 5 →
      socks5Handshake (.ok g) (.ok [5, 1, 0, 1, a, b, c, d, p1, p2])
        = ([[5, 0]],
           .ok (Nat.repr a ++ "." ++ Nat.repr b ++ "." ++ Nat.repr c ++ "." ++ Nat.repr d
             ++ ":" ++ Nat.repr (p1 * 256 + p2))))
    ∧ (∀ (g dom : List Nat) (p1 p2 : Nat),
      3 ≤ g.length → byteAt g 0 = 5 → dom.length < 256 →
      socks5Handshake (.ok g) (.ok ([5, 1, 0, 3, dom.length] ++ dom ++ [p1, p2]))
        = ([[5, 0]],
           .ok (bytesToString dom ++ ":" ++ Nat.repr (p1 * 256 + p2))))
    ∧ (∀ (g req : List Nat) (dialOk : Bool),
      3 ≤ g.length → byteAt g 0 = 5 →
      7 ≤ req.length → byteAt req 0 = 5 → byteAt req 1 = 1 → byteAt req 3 = 4 →
      handleSOCKS5Connection (.ok g) (.ok req) dialOk
        = ([[5, 0]], .error "unsupported address type")) := by
  have hgreet : ∀ (g : List Nat), 3 ≤ g.length → byteAt g 0 = 5 →
      ¬(g.length < 3 ∨ byteAt g 0 ≠ 5) := by
    intro g hg3 hg0
    push_neg
    exact ⟨by omega, hg0⟩
  refine ⟨?_, ?_, ?_⟩
  · intro g a b c d p1 p2 hg3 hg0
    simp only [socks5Handshake, hgreet g hg3 hg0, if_false, ite_false]
    norm_num [byteAt]
  · intro g dom p1 p2 hg3 hg0 hdom
    simp only [socks5Handshake, hgreet g hg3 hg0, if_false, ite_false]
    have hlen : ([5, 1, 0, 3, dom.length] ++ dom ++ [p1, p2]).length
        = 7 + dom.length := by
      simp; omega
    have hb0 : byteAt ([5, 1, 0, 3, dom.length] ++ dom ++ [p1, p2]) 0 = 5 := by rfl
    have hb1 : byteAt ([5, 1, 0, 3, dom.length] ++ dom ++ [p1, p2]) 1 = 1 := by rfl
    have hb3 : byteAt ([5, 1, 0, 3, dom.length] ++ dom ++ [p1, p2]) 3 = 3 := by rfl
    have hb4 : byteAt ([5, 1, 0, 3, dom.length] ++ dom ++ [p1, p2]) 4 = dom.length := by
      show byteAt (5 :: 1 :: 0 :: 3 :: dom.length :: (dom ++ [p1, p2])) 4 = dom.length
      rfl
    have hport1 : byteAt ([5, 1, 0, 3, dom.length] ++ dom ++ [p1, p2])
        (5 + dom.length) = p1 := by
      show byteAt (5 :: 1 :: 0 :: 3 :: dom.length :: (dom ++ [p1, p2]))
        (5 + dom.length) = p1
      rw [byteAt_five_cons]
      simpa using byteAt_append_right dom [p1, p2] 0
    have hport2 : byteAt ([5, 1, 0, 3, dom.length] ++ dom ++ [p1, p2])
        (6 + dom.length) = p2 := by
      show byteAt (5 :: 1 :: 0 :: 3 :: dom.length :: (dom ++ [p1, p2]))
        (6 + dom.length) = p2
      have harith : 6 + dom.length = 5 + (dom.length + 1) := by omega
      rw [harith, byteAt_five_cons]
      simpa using byteAt_append_right dom [p1, p2] 1
    have hdrop : (([5, 1, 0, 3, dom.length] ++ dom ++ [p1, p2]).drop 5).take dom.length
        = dom := by
      show ((5 :: 1 :: 0 :: 3 :: dom.length :: (dom ++ [p1, p2])).drop 5).take dom.length
        = dom
      simp only [List.drop_succ_cons, List.drop_zero]
      exact List.take_left dom [p1, p2]
    rw [show (6 : Nat) + dom.length = 6 + dom.length from rfl] at hport2
    simp only [hlen, hb0, hb1, hb3, hb4, hport1, hport2, hdrop]
    norm_num
  · intro g req dialOk hg3 hg0 hr7 hr0 hr1 hr3
    have hreq : ¬(req.length < 7 ∨ byteAt req 0 ≠ 5 ∨ byteAt req 1 ≠ 1) := by
      push_neg
      exact ⟨by omega, hr0, hr1⟩
    simp [handleSOCKS5Connection, socks5Handshake, hgreet g hg3 hg0, hreq, hr3]

/-- Byte encoding of "example.com". -/
def exampleDomBytes : List Nat :=
  [101, 120, 97, 109, 112, 108, 101, 46, 99, 111, 109]

/-- Witness for C4 at the claim's concrete inputs: IPv4 93.184.216.34:80,
domain example.com:80, and an IPv6 (address type 4) request. -/
theorem socks5_connect_parsing_witness :
    socks5Handshake (.ok [5, 1, 0]) (.ok [5, 1, 0, 1, 93, 184, 216, 34, 0, 80])
      = ([[5, 0]], .ok "93.184.216.34:80")
    ∧ socks5Handshake (.ok [5, 1, 0])
        (.ok ([5, 1, 0, 3, exampleDomBytes.length] ++ exampleDomBytes ++ [0, 80]))
      = ([[5, 0]], .ok "example.com:80")
    ∧ handleSOCKS5Connection (.ok [5, 1, 0])
        (.ok [5, 1, 0, 4, 0, 0, 0, 0, 0, 0, 0, 0, 0, 0, 0, 0, 0, 0, 0, 0, 0, 80]) true
      = ([[5, 0]], .error "unsupported address type") := by
  refine ⟨?_, ?_, ?_⟩
  · have h := socks5_connect_parsing.1 [5, 1, 0] 93 184 216 34 0 80 (by norm_num) (by rfl)
    simpa using h
  · have h := socks5_connect_parsing.2.1 [5, 1, 0] exampleDomBytes 0 80
      (by norm_num) (by rfl) (by norm_num [exampleDomBytes])
    rw [h]
    rfl
  · exact socks5_connect_parsing.2.2 [5, 1, 0]
      [5, 1, 0, 4, 0, 0, 0, 0, 0, 0, 0, 0, 0, 0, 0, 0, 0, 0, 0, 0, 0, 80] true
      (by norm_num) (by rfl) (by norm_num) (by rfl) (by rfl) (by rfl)

/-! Shape predicates for the rule-text encodings, written from the spec's
wording (amended: the type prefix comparison is case-insensitive, as the
parser upper-cases the first field before comparing; "numeric" is Go
strconv.Atoi acceptance). -/

/-- The "D:port" dynamic encoding, with a case-insensitive prefix. -/
def DynShape (s : String) : Prop :=
  (ruleParts s).length = 2 ∧ goToUpper ((ruleParts s).getD 0 []) = ['D']
    ∧ (goAtoi ((ruleParts s).getD 1 [])).isSome

/-- The "R:localPort:remoteHost:remotePort" remote encoding, with a
case-insensitive prefix. -/
def RemShape (s : String) : Prop :=
  (ruleParts s).length = 4 ∧ goToUpper ((ruleParts s).getD 0 []) = ['R']
    ∧ (goAtoi ((ruleParts s).getD 1 [])).isSome
    ∧ (goAtoi ((ruleParts s).getD 3 [])).isSome

/-- The "localPort:remoteHost:remotePort" local encoding. -/
def LocShape (s : String) : Prop :=
  (ruleParts s).length = 3 ∧ (goAtoi ((ruleParts s).getD 0 [])).isSome
    ∧ (goAtoi ((ruleParts s).getD 2 [])).isSome

/-- What the parser's outcome must look like: a successful parse comes from
exactly one of the three encodings and carries the encoded fields; a failed
parse means the text matches none of the encodings. -/
def AcceptedShapeSpec (s : String) : Except String ForwardingRule → Prop
  | .ok r =>
      ((ruleParts s).length = 2 ∧ goToUpper ((ruleParts s).getD 0 []) = ['D']
        ∧ r.type = .DynamicForward ∧ r.LocalHost = "localhost"
        ∧ goAtoi ((ruleParts s).getD 1 []) = some r.LocalPort)
    ∨ ((ruleParts s).length = 4 ∧ goToUpper ((ruleParts s).getD 0 []) = ['R']
        ∧ r.type = .RemoteForward ∧ r.LocalHost = "localhost"
        ∧ goAtoi ((ruleParts s).getD 1 []) = some r.LocalPort
        ∧ r.RemoteHost = String.mk ((ruleParts s).getD 2 [])
        ∧ goAtoi ((ruleParts s).getD 3 []) = some r.RemotePort)
    ∨ ((ruleParts s).length = 3
        ∧ r.type = .LocalForward ∧ r.LocalHost = "localhost"
        ∧ goAtoi ((ruleParts s).getD 0 []) = some r.LocalPort
        ∧ r.RemoteHost = String.mk ((ruleParts s).getD 1 [])
        ∧ goAtoi ((ruleParts s).getD 2 []) = some r.RemotePort)
  | .error _ => ¬ DynShape s ∧ ¬ RemShape s ∧ ¬ LocShape s

/-- C9 amended: the parser accepts exactly the encodings
"localPort:remoteHost:remotePort" (Local), "R:localPort:remoteHost:remotePort"
(Remote) and "D:port" (Dynamic) with the R/D prefixes matched
case-insensitively, producing the encoded fields; every other shape, and any
port Atoi rejects, yields an error. -/
theorem parseForwardingRule_accepts_exactly (s : String) :
    AcceptedShapeSpec s (parseForwardingRule s) := by
  have hru : ruleParts s = goSplit ':' s.data := rfl
  unfold parseForwardingRule
  by_cases h1 : (goSplit ':' s.data).length = 2
      ∧ goToUpper ((goSplit ':' s.data).getD 0 []) = ['D']
  · rw [if_pos h1]
    cases ha : goAtoi ((goSplit ':' s.data).getD 1 []) with
    | none =>
      refine ⟨?_, ?_, ?_⟩
      · intro hdyn
        have hsome := hdyn.2.2
        rw [hru, ha] at hsome
        simp at hsome
      · intro hrem
        have hlen := hrem.1
        rw [hru] at hlen
        omega
      · intro hloc
        have hlen := hloc.1
        rw [hru] at hlen
        omega
    | some port =>
      left
      exact ⟨by rw [hru]; exact h1.1, by rw [hru]; exact h1.2, rfl, rfl,
        by rw [hru]; exact ha⟩
  · rw [if_neg h1]
    by_cases h2 : (goSplit ':' s.data).length = 4
        ∧ goToUpper ((goSplit ':' s.data).getD 0 []) = ['R']
    · rw [if_pos h2]
      cases ha : goAtoi ((goSplit ':' s.data).getD 1 []) with
      | none =>
        refine ⟨?_, ?_, ?_⟩
        · intro hdyn
          have hlen := hdyn.1
          rw [hru] at hlen
          omega
        · intro hrem
          have hsome := hrem.2.2.1
          rw [hru, ha] at hsome
          simp at hsome
        · intro hloc
          have hlen := hloc.1
          rw [hru] at hlen
          omega
      | some localPort =>
        cases hb : goAtoi ((goSplit ':' s.data).getD 3 []) with
        | none =>
          refine ⟨?_, ?_, ?_⟩
          · intro hdyn
            have hlen := hdyn.1
            rw [hru] at hlen
            omega
          · intro hrem
            have hsome := hrem.2.2.2
            rw [hru, hb] at hsome
            simp at hsome
          · intro hloc
            have hlen := hloc.1
            rw [hru] at hlen
            omega
        | some remotePort =>
          right; left
          exact ⟨by rw [hru]; exact h2.1, by rw [hru]; exact h2.2, rfl, rfl,
            by rw [hru]; exact ha, by rw [hru], by rw [hru]; exact hb⟩
    · rw [if_neg h2]
      by_cases h3 : (goSplit ':' s.data).length = 3
      · rw [if_pos h3]
        cases ha : goAtoi ((goSplit ':' s.data).getD 0 []) with
        | none =>
          refine ⟨?_, ?_, ?_⟩
          · intro hdyn
            have hlen := hdyn.1
            rw [hru] at hlen
            omega
          · intro hrem
            have hlen := hrem.1
            rw [hru] at hlen
            omega
          · intro hloc
            have hsome := hloc.2.1
            rw [hru, ha] at hsome
            simp at hsome
        | some localPort =>
          cases hb : goAtoi ((goSplit ':' s.data).getD 2 []) with
          | none =>
            refine ⟨?_, ?_, ?_⟩
            · intro hdyn
              have hlen := hdyn.1
              rw [hru] at hlen
              omega
            · intro hrem
              have hlen := hrem.1
              rw [hru] at hlen
              omega
            · intro hloc
              have hsome := hloc.2.2
              rw [hru, hb] at hsome
              simp at hsome
          | some remotePort =>
            right; right
            exact ⟨by rw [hru]; exact h3, rfl, rfl,
              by rw [hru]; exact ha, by rw [hru], by rw [hru]; exact hb⟩
      · rw [if_neg h3]
        refine ⟨?_, ?_, ?_⟩
        · intro hdyn
          exact h1 ⟨by rw [← hru]; exact hdyn.1, by rw [← hru]; exact hdyn.2.1⟩
        · intro hrem
          exact h2 ⟨by rw [← hru]; exact hrem.1, by rw [← hru]; exact hrem.2.1⟩
        · intro hloc
          exact h3 (by rw [← hru]; exact hloc.1)

/-- C9 counterexample: "d:1080" — whose first field is 'd', not the literal
'D' of the claimed "D:port" encoding — is accepted by the parser (the prefix
comparison is case-insensitive). -/
theorem parseForwardingRule_lowercase_prefix_accepted :
    parseForwardingRule "d:1080"
      = .ok { ID := "cli-6", type := .DynamicForward, LocalHost := "localhost",
              LocalPort := 1080, RemoteHost := "", RemotePort := 0,
              Description := "SOCKS proxy on port 1080" }
    ∧ (ruleParts "d:1080").getD 0 [] = ['d']
    ∧ (['d'] : List Char) ≠ ['D'] :=
  ⟨by rfl, by rfl, by decide⟩

/-- Every successful parse assigns the id "cli-<length of the rule text>". -/
theorem parseForwardingRule_ok_id (s : String) (r : ForwardingRule)
    (h : parseForwardingRule s = .ok r) : r.ID = "cli-" ++ Nat.repr s.length := by
  unfold parseForwardingRule at h
  by_cases h1 : (goSplit ':' s.data).length = 2
      ∧ goToUpper ((goSplit ':' s.data).getD 0 []) = ['D']
  · rw [if_pos h1] at h
    cases ha : goAtoi ((goSplit ':' s.data).getD 1 []) with
    | none => rw [ha] at h; cases h
    | some port => rw [ha] at h; injection h with h; rw [← h]
  · rw [if_neg h1] at h
    by_cases h2 : (goSplit ':' s.data).length = 4
        ∧ goToUpper ((goSplit ':' s.data).getD 0 []) = ['R']
    · rw [if_pos h2] at h
      cases ha : goAtoi ((goSplit ':' s.data).getD 1 []) with
      | none => rw [ha] at h; cases h
      | some localPort =>
        rw [ha] at h
        cases hb : goAtoi ((goSplit ':' s.data).getD 3 []) with
        | none => rw [hb] at h; cases h
        | some remotePort => rw [hb] at h; injection h with h; rw [← h]
    · rw [if_neg h2] at h
      by_cases h3 : (goSplit ':' s.data).length = 3
      · rw [if_pos h3] at h
        cases ha : goAtoi ((goSplit ':' s.data).getD 0 []) with
        | none => rw [ha] at h; cases h
        | some localPort =>
          rw [ha] at h
          cases hb : goAtoi ((goSplit ':' s.data).getD 2 []) with
          | none => rw [hb] at h; cases h
          | some remotePort => rw [hb] at h; injection h with h; rw [← h]
      · rw [if_neg h3] at h
        cases h

/-- C10: the parser derives the rule id solely from the length of the rule
text ("cli-<length>"); the two distinct valid rule strings
"8080:localhost:80" and "9090:localhost:91" have equal length, so their
parsed rules carry the same id "cli-17", and starting the second while the
first is registered fails with the "already exists" error. -/
theorem parseForwardingRule_id_collision :
    (∀ s : String,
      match parseForwardingRule s with
      | .ok r => r.ID = "cli-" ++ Nat.repr s.length
      | .error _ => True)
    ∧ ("8080:localhost:80" : String) ≠ "9090:localhost:91"
    ∧ (match parseForwardingRule "8080:localhost:80",
             parseForwardingRule "9090:localhost:91" with
       | .ok r1, .ok r2 => r1.ID = "cli-17" ∧ r2.ID = "cli-17" ∧ r1 ≠ r2
       | _, _ => False)
    ∧ (match parseForwardingRule "8080:localhost:80",
             parseForwardingRule "9090:localhost:91" with
       | .ok r1, .ok r2 =>
          (StartForwarding (StartForwarding NewManager r1 (.ok ()) 0).1 r2 (.ok ()) 0).2
            = .error "forwarding session cli-17 already exists"
       | _, _ => False) := by
  refine ⟨?_, by decide, ⟨by rfl, by rfl, by decide⟩, by rfl⟩
  intro s
  cases hp : parseForwardingRule s with
  | ok r => exact parseForwardingRule_ok_id s r hp
  | error e => trivial

end XSSH
